import Mathlib

/-!
Verification of the context-reconciliation and flag-resolution core of the
OpenFeature provider for the Flagship backend (`src/Provider.ts`,
class `ABTastyProvider`).

The provider is embedded shallowly: every method becomes a pure Lean
function from an explicit provider state to a new state together with a
trace of the backend calls it performs.  The backend flag-management
client (`Flagship` / `Visitor` from the external SDK) is not part of this
repository; it is abstracted at its capability boundary by a
`BackendBehavior` record that supplies the backend-decided reactions
(initial fetch status of a fresh handle, flags returned by a fetch,
whether an attribute patch marks the flags stale).  All theorems quantify
over every such behavior.
-/

namespace ABTasty

/-- Primitive context values (string, number, boolean).  JavaScript
numbers are modelled by `Int`: the provider never computes with them,
they are opaque payloads. -/
inductive Primitive where
  | str (s : String)
  | num (n : Int)
  | bool (b : Bool)
deriving DecidableEq, Repr

/-- A value of the OpenFeature evaluation-context attribute bag
(`EvaluationContextValue`): a primitive, `null`, a function, or any
object (nested records, arrays, dates are all `typeof === 'object'`). -/
inductive CtxValue where
  | prim (p : Primitive)
  | null
  | func
  | obj
deriving DecidableEq, Repr

/-- The JavaScript runtime values a flag evaluation can produce.  `nan`
is kept separate from `num` because it is falsy-relevant. -/
inductive JSValue where
  | str (s : String)
  | num (n : Int)
  | nan
  | bool (b : Bool)
  | null
  | undef
  | obj
deriving DecidableEq, Repr

/-- JavaScript truthiness test: the falsy values are the empty string,
zero, `NaN`, `false`, `null` and `undefined`; every object is truthy. -/
def jsFalsy : JSValue → Bool
  | .str s => s == ""
  | .num n => n == 0
  | .nan => true
  | .bool b => b == false
  | .null => true
  | .undef => true
  | .obj => false

/-- Fetch status of a session handle (`FSFetchStatus` of the backend SDK). -/
inductive FSFetchStatus where
  | FETCH_REQUIRED
  | FETCHING
  | FETCHED
  | PANIC
deriving DecidableEq, Repr

/-- Global backend initialisation status (`FSSdkStatus`). -/
inductive FSSdkStatus where
  | SDK_NOT_INITIALIZED
  | SDK_INITIALIZING
  | SDK_INITIALIZED
  | SDK_PANIC
deriving DecidableEq, Repr

/-- Flag metadata as supplied by the backend: a possibly-missing `slug`
(`none` covers both `undefined` and `null`, the two values `??`
replaces) plus all remaining metadata fields, kept as an opaque
association list so that the spread `{...flagMetadata}` is a plain
copy. -/
structure FlagMetadata where
  slug : Option String
  rest : List (String × JSValue)

/-- Metadata after the provider's normalisation: `slug` is always
present (a plain `String`), the other fields are untouched. -/
structure SanitizedMetadata where
  slug : String
  rest : List (String × JSValue)

/-- A flag object returned by `visitor.getFlag`: `getValue` receives the
caller default and returns the evaluated value (the backend decides the
coercion), `metadata` is the backend metadata. -/
structure Flag where
  getValue : JSValue → JSValue
  metadata : FlagMetadata

/-- Modelled from the spec: the `fsVisitorInfo` structure of the
evaluation context, `{ hasConsented: boolean, isAuthenticated?: boolean }`
(its declaration lives in `src/types.ts`, which only re-exports shapes;
consent is the only field the reconciler acts on). -/
structure VisitorInfo where
  hasConsented : Option Bool
  isAuthenticated : Option Bool

/-- The evaluation context handed to the provider: the reserved
`targetingKey` and `fsVisitorInfo` fields plus the user attribute bag
(an insertion-ordered record). -/
structure FlagshipContext where
  targetingKey : Option String
  fsVisitorInfo : Option VisitorInfo
  attrs : List (String × CtxValue)

/-- A session handle (`Visitor`).  `id` is a creation counter standing
for JavaScript object identity; `visitorId` is the identity the handle
was created with (`none` = anonymous); `flags` is the handle's current
flag table, read by `getFlag`. -/
structure Visitor where
  id : Nat
  visitorId : Option String
  hasConsented : Option Bool
  context : List (String × Primitive)
  flagsStatus : FSFetchStatus
  flags : String → Option Flag

/-- Look a flag up on a handle (`visitor.getFlag(key)`). -/
def Visitor.getFlag (v : Visitor) (key : String) : Option Flag :=
  v.flags key

/-- Modelled from the spec: the backend-decided reactions of the
external SDK at its capability boundary (§6 of the specification); the
SDK itself is not part of this repository.  `newStatus`/`newFlags` are
the state of a freshly created, not yet fetched handle; `fetchedFlags`
is the flag table a fetch installs; `statusAfterUpdate` is the fetch
status after an attribute patch (the backend may flip it to
`FETCH_REQUIRED`). -/
structure BackendBehavior where
  newStatus : FSFetchStatus
  newFlags : String → Option Flag
  fetchedFlags : Visitor → String → Option Flag
  statusAfterUpdate : Visitor → List (String × Primitive) → FSFetchStatus

/-- Right-biased record merge: the backend's `updateContext` applies an
incremental patch on top of the existing attribute bag. -/
def mergeRecord (base patch : List (String × Primitive)) :
    List (String × Primitive) :=
  base.map (fun kv =>
    match patch.lookup kv.1 with
    | some p => (kv.1, p)
    | none => kv) ++
  patch.filter (fun kv => base.lookup kv.1 = none)

/-- Effect of `visitor.setConsent(b)` on the handle. -/
def Visitor.setConsentOp (v : Visitor) (b : Bool) : Visitor :=
  { v with hasConsented := some b }

/-- Effect of `visitor.updateContext(bag)` on the handle: patch the
attribute bag; the backend decides the resulting fetch status. -/
def Visitor.updateContextOp (B : BackendBehavior) (v : Visitor)
    (bag : List (String × Primitive)) : Visitor :=
  { v with
    context := mergeRecord v.context bag
    flagsStatus := B.statusAfterUpdate v bag }

/-- Effect of `await visitor.fetchFlags()` on the handle: install the
fetched flag table and mark the status `FETCHED`. -/
def Visitor.fetchFlagsOp (B : BackendBehavior) (v : Visitor) : Visitor :=
  { v with
    flagsStatus := FSFetchStatus.FETCHED
    flags := B.fetchedFlags v }

/-- Observable backend calls performed by the provider, in execution
order.  Handle-directed calls carry the handle's object identity. -/
inductive Event where
  | sdkStart
  | newVisitorCall (visitorId : Option String) (hasConsented : Option Bool)
      (ctx : List (String × Primitive))
  | fetchFlagsCall (handle : Nat)
  | updateContextCall (handle : Nat) (ctx : List (String × Primitive))
  | setConsentCall (handle : Nat) (b : Bool)
  | emitReady
deriving DecidableEq, Repr

/-- Event classifiers used to count calls of each kind in a trace. -/
def isNewVisitorEvent : Event → Bool
  | .newVisitorCall _ _ _ => true
  | _ => false

def isFetchEvent : Event → Bool
  | .fetchFlagsCall _ => true
  | _ => false

def isUpdateContextEvent : Event → Bool
  | .updateContextCall _ _ => true
  | _ => false

def isSetConsentEvent : Event → Bool
  | .setConsentCall _ _ => true
  | _ => false

def isReadyEvent : Event → Bool
  | .emitReady => true
  | _ => false

/-- The provider's mutable state: the single owned session handle
(`this._visitor`), the creation counter for object identities, and the
backend's global status. -/
structure PState where
  visitor : Option Visitor
  nextId : Nat
  sdkStatus : FSSdkStatus

/-- The context-translation filter `toPrimitiveRecord`: keep an entry
exactly when its value is neither `null` nor of `typeof` object or
function, i.e. when it is a primitive.  The JavaScript loop builds the
output record in input order. -/
def toPrimitiveRecord (input : List (String × CtxValue)) :
    List (String × Primitive) :=
  input.foldl
    (fun output kv =>
      match kv.2 with
      | .prim p => output ++ [(kv.1, p)]
      | _ => output)
    []

/-- The primitive payload of a context value, when it has one. -/
def asPrimitive : CtxValue → Option Primitive
  | .prim p => some p
  | _ => none

/-- The default context substituted by `createVisitor` when it is called
without one: `context || { fsVisitorInfo: { hasConsented: undefined } }`. -/
def emptyContext : FlagshipContext :=
  { targetingKey := none
    fsVisitorInfo := some { hasConsented := none, isAuthenticated := none }
    attrs := [] }

/-- The `createVisitor` method: destructure the (defaulted) context,
call `Flagship.newVisitor` with the spread visitor info, the
`targetingKey` as `visitorId` and the filtered attribute bag, then
`await visitor.fetchFlags()`.  Returns the fetched handle, the state
with the identity counter advanced, and the trace. -/
def createVisitor (B : BackendBehavior) (s : PState)
    (context : Option FlagshipContext) : Visitor × PState × List Event :=
  let ctx := context.getD emptyContext
  let consent := ctx.fsVisitorInfo.bind VisitorInfo.hasConsented
  let bag := toPrimitiveRecord ctx.attrs
  let v0 : Visitor :=
    { id := s.nextId
      visitorId := ctx.targetingKey
      hasConsented := consent
      context := bag
      flagsStatus := B.newStatus
      flags := B.newFlags }
  let v1 := v0.fetchFlagsOp B
  (v1, { s with nextId := s.nextId + 1 },
    [Event.newVisitorCall ctx.targetingKey consent bag,
     Event.fetchFlagsCall v0.id])

/-- The patch path of `updateVisitorFlags`, taken when the identity is
unchanged and a handle `v` exists: consent toggle when the incoming
consent is defined and differs, then the attribute patch, then a fetch
when the handle reports `FETCH_REQUIRED`. -/
def patchExisting (B : BackendBehavior) (v : Visitor)
    (c : FlagshipContext) : Visitor × List Event :=
  let hc := c.fsVisitorInfo.bind VisitorInfo.hasConsented
  let consentStep : Visitor × List Event :=
    match hc with
    | some b =>
      if v.hasConsented ≠ some b then
        (v.setConsentOp b, [Event.setConsentCall v.id b])
      else (v, [])
    | none => (v, [])
  let bag := toPrimitiveRecord c.attrs
  let v2 := consentStep.1.updateContextOp B bag
  let fetchStep : Visitor × List Event :=
    if v2.flagsStatus = FSFetchStatus.FETCH_REQUIRED then
      (v2.fetchFlagsOp B, [Event.fetchFlagsCall v.id])
    else (v2, [])
  (fetchStep.1,
   consentStep.2 ++ Event.updateContextCall v.id bag :: fetchStep.2)

/-- The `updateVisitorFlags` method.  The branch condition is the
JavaScript loose comparison `targetingKey != this._visitor?.visitorId`:
the optional chain yields `undefined` both when no handle exists and
when the handle is anonymous, which `Option.bind` reproduces.  When the
identity differs a fresh handle is created and stored; otherwise the
patch path runs through optional chains, which are all no-ops when no
handle exists. -/
def updateVisitorFlags (B : BackendBehavior) (s : PState)
    (c : FlagshipContext) : PState × List Event :=
  if c.targetingKey ≠ s.visitor.bind Visitor.visitorId then
    let r := createVisitor B s (some c)
    ({ r.2.1 with visitor := some r.1 }, r.2.2)
  else
    match s.visitor with
    | none => (s, [])
    | some v =>
      let p := patchExisting B v c
      ({ s with visitor := some p.1 }, p.2)

/-- The `initializeSDK` method: start the backend once, guarded by its
global status. -/
def initializeSDK (s : PState) : PState × List Event :=
  if s.sdkStatus = FSSdkStatus.SDK_NOT_INITIALIZED then
    ({ s with sdkStatus := FSSdkStatus.SDK_INITIALIZED }, [Event.sdkStart])
  else (s, [])

/-- The `initialize` method of the provider (renamed here because the
word is reserved in Lean): start the backend if needed, create and fetch
a fresh handle from the optional context, store it, and emit the `Ready`
event last. -/
def initializeProvider (B : BackendBehavior) (s : PState)
    (context : Option FlagshipContext) : PState × List Event :=
  let r0 := initializeSDK s
  let r1 := createVisitor B r0.1 context
  ({ r1.2.1 with visitor := some r1.1 },
   r0.2 ++ r1.2.2 ++ [Event.emitReady])

/-- The `onContextChange` hook: the old context is ignored, the new one
is reconciled against the current handle. -/
def onContextChange (B : BackendBehavior) (s : PState)
    (_oldContext newContext : FlagshipContext) : PState × List Event :=
  updateVisitorFlags B s newContext

/-- The resolution details returned to the OpenFeature client. -/
structure ResolutionDetails where
  value : JSValue
  flagMetadata : Option SanitizedMetadata

/-- Metadata normalisation `{ ...flagMetadata, slug: flagMetadata.slug ?? '' }`. -/
def sanitizeMetadata (m : FlagMetadata) : SanitizedMetadata :=
  { slug := m.slug.getD ""
    rest := m.rest }

/-- The generic `resolveEvaluation` method: look the flag up on the
current handle through optional chains, evaluate it against the default,
normalise the metadata, and return `flagValue || defaultValue`. -/
def resolveEvaluation (visitor : Option Visitor) (flagKey : String)
    (defaultValue : JSValue) : ResolutionDetails :=
  let flag := visitor.bind (fun v => v.getFlag flagKey)
  let flagValue :=
    match flag with
    | some f => f.getValue defaultValue
    | none => JSValue.undef
  let sanitizedFlagMetadata := flag.map (fun f => sanitizeMetadata f.metadata)
  { value := if jsFalsy flagValue then defaultValue else flagValue
    flagMetadata := sanitizedFlagMetadata }

/-- `resolveBooleanEvaluation` delegates to the generic resolution at a
boolean default. -/
def resolveBooleanEvaluation (visitor : Option Visitor) (flagKey : String)
    (defaultValue : Bool) : ResolutionDetails :=
  resolveEvaluation visitor flagKey (JSValue.bool defaultValue)

/-- `resolveStringEvaluation` delegates to the generic resolution at a
string default. -/
def resolveStringEvaluation (visitor : Option Visitor) (flagKey : String)
    (defaultValue : String) : ResolutionDetails :=
  resolveEvaluation visitor flagKey (JSValue.str defaultValue)

/-- `resolveNumberEvaluation` delegates to the generic resolution at a
numeric default. -/
def resolveNumberEvaluation (visitor : Option Visitor) (flagKey : String)
    (defaultValue : Int) : ResolutionDetails :=
  resolveEvaluation visitor flagKey (JSValue.num defaultValue)

/-- `resolveObjectEvaluation` delegates to the generic resolution at an
arbitrary JSON default. -/
def resolveObjectEvaluation (visitor : Option Visitor) (flagKey : String)
    (defaultValue : JSValue) : ResolutionDetails :=
  resolveEvaluation visitor flagKey defaultValue

/-! Concrete fixtures used by the witness and counterexample theorems. -/

/-- A simple backend behavior for concrete runs: fresh handles are born
fetched, no flags are served, patches never mark the flags stale. -/
def trivB : BackendBehavior :=
  { newStatus := FSFetchStatus.FETCHED
    newFlags := fun _ => none
    fetchedFlags := fun _ _ => none
    statusAfterUpdate := fun _ _ => FSFetchStatus.FETCHED }

/-- A backend behavior whose patches always mark the flags stale. -/
def staleB : BackendBehavior :=
  { newStatus := FSFetchStatus.FETCH_REQUIRED
    newFlags := fun _ => none
    fetchedFlags := fun _ _ => none
    statusAfterUpdate := fun _ _ => FSFetchStatus.FETCH_REQUIRED }

/-- Provider state before any handle exists. -/
def noneState : PState :=
  { visitor := none, nextId := 0, sdkStatus := FSSdkStatus.SDK_INITIALIZED }

/-- A context with no targeting key, no visitor info and no attributes. -/
def anonCtx : FlagshipContext :=
  { targetingKey := none, fsVisitorInfo := none, attrs := [] }

/-- A context identifying the user `u` with consent granted and one
primitive attribute. -/
def userCtx : FlagshipContext :=
  { targetingKey := some "u"
    fsVisitorInfo := some { hasConsented := some true, isAuthenticated := none }
    attrs := [("age", CtxValue.prim (Primitive.num 30))] }

/-- A context identifying the user `u` with consent withdrawn. -/
def userCtxNoConsent : FlagshipContext :=
  { targetingKey := some "u"
    fsVisitorInfo := some { hasConsented := some false, isAuthenticated := none }
    attrs := [] }

/-- A flag whose evaluation yields the empty string (a falsy value) and
whose backend metadata omits the slug. -/
def falsyFlag : Flag :=
  { getValue := fun _ => JSValue.str ""
    metadata := { slug := none, rest := [("campaignId", JSValue.str "c1")] } }

/-- A handle for user `u` that serves `falsyFlag` for every key. -/
def wVisitor : Visitor :=
  { id := 0
    visitorId := some "u"
    hasConsented := some true
    context := []
    flagsStatus := FSFetchStatus.FETCHED
    flags := fun _ => some falsyFlag }

/-- Provider state currently holding `wVisitor`. -/
def userState : PState :=
  { visitor := some wVisitor, nextId := 1, sdkStatus := FSSdkStatus.SDK_INITIALIZED }

/-! Theorems. -/

/-- Auxiliary characterisation of the translation loop with an explicit
accumulator. -/
theorem toPrimitiveRecord_foldl_eq (input : List (String × CtxValue)) :
    ∀ acc : List (String × Primitive),
      input.foldl
        (fun output kv =>
          match kv.2 with
          | .prim p => output ++ [(kv.1, p)]
          | _ => output)
        acc
      = acc ++ input.filterMap (fun kv => (asPrimitive kv.2).map (fun p => (kv.1, p))) := by
  induction input with
  | nil => intro acc; simp
  | cons kv rest ih =>
    intro acc
    obtain ⟨k, v⟩ := kv
    cases v <;> simp [asPrimitive, ih]

/-- C6: the context-translation filter forwards exactly the input
entries whose value is a primitive (string, number or boolean), in input
order; entries whose value is `null`, a function or an object have no
image in the output, so no non-primitive value is ever forwarded
downstream. -/
theorem toPrimitiveRecord_keeps_exactly_primitives
    (input : List (String × CtxValue)) :
    toPrimitiveRecord input
      = input.filterMap (fun kv => (asPrimitive kv.2).map (fun p => (kv.1, p))) := by
  simpa using toPrimitiveRecord_foldl_eq input []

/-- C10: the four typed resolution methods are each extensionally equal
to the generic `resolveEvaluation` applied at their type, so their
value-fallback and metadata-normalisation behaviour is identical. -/
theorem typed_resolvers_delegate_to_generic (visitor : Option Visitor)
    (flagKey : String) :
    (∀ b : Bool, resolveBooleanEvaluation visitor flagKey b
        = resolveEvaluation visitor flagKey (JSValue.bool b)) ∧
    (∀ s : String, resolveStringEvaluation visitor flagKey s
        = resolveEvaluation visitor flagKey (JSValue.str s)) ∧
    (∀ n : Int, resolveNumberEvaluation visitor flagKey n
        = resolveEvaluation visitor flagKey (JSValue.num n)) ∧
    (∀ j : JSValue, resolveObjectEvaluation visitor flagKey j
        = resolveEvaluation visitor flagKey j) :=
  ⟨fun _ => rfl, fun _ => rfl, fun _ => rfl, fun _ => rfl⟩

/-- C5: when no session handle exists, or the handle's `getFlag` returns
`undefined` for the key, resolution returns the default value unchanged
with undefined metadata.  (Totality over the declared input domain is by
construction: `resolveEvaluation` is a total Lean function.) -/
theorem resolve_missing_returns_default (visitor : Option Visitor)
    (flagKey : String) (defaultValue : JSValue)
    (h : visitor = none ∨ ∃ vi, visitor = some vi ∧ vi.getFlag flagKey = none) :
    resolveEvaluation visitor flagKey defaultValue
      = { value := defaultValue, flagMetadata := none } := by
  have hb : visitor.bind (fun v => v.getFlag flagKey) = none := by
    rcases h with h | ⟨vi, hv, hf⟩
    · simp [h]
    · simp [hv, hf]
  simp [resolveEvaluation, hb, jsFalsy]

/-- Witness for C5 at the empty provider state. -/
theorem resolve_missing_returns_default_witness :
    resolveEvaluation none "missing" (JSValue.num 7)
      = { value := JSValue.num 7, flagMetadata := none } :=
  resolve_missing_returns_default none "missing" (JSValue.num 7) (Or.inl rfl)

/-- C4: whenever the flag exists on the current handle and the backend's
`getValue` returns a JavaScript-falsy value (empty string, zero, `false`,
`null`, `undefined`, `NaN`), the `value || default` policy makes
resolution return the caller-supplied default instead of the evaluated
value.  The four typed methods inherit this through
`typed_resolvers_delegate_to_generic`. -/
theorem resolve_falsy_value_returns_default (visitor : Option Visitor)
    (vi : Visitor) (f : Flag) (flagKey : String) (defaultValue : JSValue)
    (hv : visitor = some vi)
    (hf : vi.getFlag flagKey = some f)
    (hfalsy : jsFalsy (f.getValue defaultValue) = true) :
    (resolveEvaluation visitor flagKey defaultValue).value = defaultValue := by
  simp [resolveEvaluation, hv, hf, hfalsy]

/-- Witness for C4: a flag evaluating to the empty string is replaced by
the default `7`. -/
theorem resolve_falsy_value_returns_default_witness :
    (resolveEvaluation (some wVisitor) "f" (JSValue.num 7)).value
      = JSValue.num 7 :=
  resolve_falsy_value_returns_default (some wVisitor) wVisitor falsyFlag "f"
    (JSValue.num 7) rfl rfl (by decide)

/-- C9: resolving a key that exists on the current handle always returns
metadata carrying a `slug` field — the backend slug when it is defined,
the empty string when the backend omits it — while every other metadata
field passes through unchanged. -/
theorem resolve_metadata_normalisation (visitor : Option Visitor)
    (vi : Visitor) (f : Flag) (flagKey : String) (defaultValue : JSValue)
    (hv : visitor = some vi)
    (hf : vi.getFlag flagKey = some f) :
    ∃ m, (resolveEvaluation visitor flagKey defaultValue).flagMetadata = some m
      ∧ m.slug = f.metadata.slug.getD ""
      ∧ m.rest = f.metadata.rest := by
  refine ⟨sanitizeMetadata f.metadata, ?_, rfl, rfl⟩
  simp [resolveEvaluation, hv, hf]

/-- Witness for C9: `falsyFlag` has no backend slug, so the returned
metadata carries the empty slug and the untouched remaining fields. -/
theorem resolve_metadata_normalisation_witness :
    ∃ m, (resolveEvaluation (some wVisitor) "f" (JSValue.num 7)).flagMetadata = some m
      ∧ m.slug = falsyFlag.metadata.slug.getD ""
      ∧ m.rest = falsyFlag.metadata.rest :=
  resolve_metadata_normalisation (some wVisitor) wVisitor falsyFlag "f"
    (JSValue.num 7) rfl rfl

/-! Helper lemmas about the backend operations and the reconciler. -/

@[simp] theorem setConsentOp_id (v : Visitor) (b : Bool) :
    (v.setConsentOp b).id = v.id := rfl

@[simp] theorem setConsentOp_visitorId (v : Visitor) (b : Bool) :
    (v.setConsentOp b).visitorId = v.visitorId := rfl

@[simp] theorem updateContextOp_id (B : BackendBehavior) (v : Visitor)
    (bag : List (String × Primitive)) :
    (v.updateContextOp B bag).id = v.id := rfl

@[simp] theorem updateContextOp_visitorId (B : BackendBehavior) (v : Visitor)
    (bag : List (String × Primitive)) :
    (v.updateContextOp B bag).visitorId = v.visitorId := rfl

@[simp] theorem fetchFlagsOp_id (B : BackendBehavior) (v : Visitor) :
    (v.fetchFlagsOp B).id = v.id := rfl

@[simp] theorem fetchFlagsOp_visitorId (B : BackendBehavior) (v : Visitor) :
    (v.fetchFlagsOp B).visitorId = v.visitorId := rfl

@[simp] theorem createVisitor_fst_id (B : BackendBehavior) (s : PState)
    (c : Option FlagshipContext) :
    (createVisitor B s c).1.id = s.nextId := rfl

/-- The trace of `createVisitor` is one handle creation followed by one
fetch on the fresh handle. -/
theorem createVisitor_trace (B : BackendBehavior) (s : PState)
    (c : Option FlagshipContext) :
    (createVisitor B s c).2.2
      = [Event.newVisitorCall (c.getD emptyContext).targetingKey
           ((c.getD emptyContext).fsVisitorInfo.bind VisitorInfo.hasConsented)
           (toPrimitiveRecord (c.getD emptyContext).attrs),
         Event.fetchFlagsCall s.nextId] := rfl

@[simp] theorem initializeSDK_nextId (s : PState) :
    (initializeSDK s).1.nextId = s.nextId := by
  unfold initializeSDK; split_ifs <;> rfl

/-- The SDK start step emits either nothing or the single start event. -/
theorem initializeSDK_trace (s : PState) :
    (initializeSDK s).2 = [] ∨ (initializeSDK s).2 = [Event.sdkStart] := by
  unfold initializeSDK; split_ifs <;> simp

/-- The patch path preserves the handle's object identity. -/
theorem patchExisting_id (B : BackendBehavior) (v : Visitor)
    (c : FlagshipContext) :
    (patchExisting B v c).1.id = v.id := by
  unfold patchExisting
  cases hhc : c.fsVisitorInfo.bind VisitorInfo.hasConsented <;>
    simp only [hhc] <;> split_ifs <;> simp

/-- The patch path preserves the handle's identity key. -/
theorem patchExisting_visitorId (B : BackendBehavior) (v : Visitor)
    (c : FlagshipContext) :
    (patchExisting B v c).1.visitorId = v.visitorId := by
  unfold patchExisting
  cases hhc : c.fsVisitorInfo.bind VisitorInfo.hasConsented <;>
    simp only [hhc] <;> split_ifs <;> simp

/-- The patch path never creates a handle. -/
theorem patchExisting_no_new (B : BackendBehavior) (v : Visitor)
    (c : FlagshipContext) :
    ((patchExisting B v c).2).countP isNewVisitorEvent = 0 := by
  unfold patchExisting
  cases hhc : c.fsVisitorInfo.bind VisitorInfo.hasConsented <;>
    simp only [hhc] <;> split_ifs <;>
    simp [isNewVisitorEvent]

/-- The patch path performs no consent call when the incoming consent is
undefined or equal to the handle's current consent. -/
theorem patchExisting_consent_skipped (B : BackendBehavior) (v : Visitor)
    (c : FlagshipContext)
    (h : c.fsVisitorInfo.bind VisitorInfo.hasConsented = none
       ∨ c.fsVisitorInfo.bind VisitorInfo.hasConsented = v.hasConsented) :
    ((patchExisting B v c).2).countP isSetConsentEvent = 0 := by
  unfold patchExisting
  rcases h with h | h
  · simp only [h]
    split_ifs <;> simp [isSetConsentEvent]
  · cases hhc : c.fsVisitorInfo.bind VisitorInfo.hasConsented with
    | none => simp only [hhc]; split_ifs <;> simp [isSetConsentEvent]
    | some b =>
      rw [hhc] at h
      simp only [hhc]
      rw [if_neg (by simp [← h])]
      split_ifs <;> simp [isSetConsentEvent]

/-- The patch path applies the consent toggle exactly once, with the new
value, immediately before the attribute patch, when the incoming consent
is defined and differs from the handle's current consent. -/
theorem patchExisting_consent_applied (B : BackendBehavior) (v : Visitor)
    (c : FlagshipContext) (b : Bool)
    (hb : c.fsVisitorInfo.bind VisitorInfo.hasConsented = some b)
    (hne : v.hasConsented ≠ some b) :
    ∃ rest, (patchExisting B v c).2
        = Event.setConsentCall v.id b
          :: Event.updateContextCall v.id (toPrimitiveRecord c.attrs) :: rest
      ∧ rest.countP isSetConsentEvent = 0 := by
  unfold patchExisting
  simp only [hb]
  rw [if_pos hne]
  split_ifs <;> exact ⟨_, rfl, by simp [isSetConsentEvent]⟩

/-- C1: when the new context's `targetingKey` differs from the current
handle's identity (the optional chain yields `undefined` when no handle
exists), the context-change hook creates exactly one new handle,
performs exactly one fetch, directed at the new handle, stores the new
handle, and issues no `updateContext` or `setConsent` call on any
handle. -/
theorem contextChange_identity_change (B : BackendBehavior) (s : PState)
    (oldC c : FlagshipContext)
    (h : c.targetingKey ≠ s.visitor.bind Visitor.visitorId) :
    ((onContextChange B s oldC c).2).countP isNewVisitorEvent = 1 ∧
    ((onContextChange B s oldC c).2).countP isFetchEvent = 1 ∧
    Event.fetchFlagsCall s.nextId ∈ (onContextChange B s oldC c).2 ∧
    ((onContextChange B s oldC c).1).visitor.map Visitor.id = some s.nextId ∧
    ((onContextChange B s oldC c).2).countP isUpdateContextEvent = 0 ∧
    ((onContextChange B s oldC c).2).countP isSetConsentEvent = 0 := by
  unfold onContextChange updateVisitorFlags
  rw [if_pos h]
  refine ⟨?_, ?_, ?_, ?_, ?_, ?_⟩ <;>
    simp [createVisitor_trace, isNewVisitorEvent, isFetchEvent,
      isUpdateContextEvent, isSetConsentEvent]

/-- Witness for C1: reconciling the `u` context from the empty provider
state. -/
theorem contextChange_identity_change_witness :
    userCtx.targetingKey ≠ noneState.visitor.bind Visitor.visitorId ∧
    (((onContextChange trivB noneState anonCtx userCtx).2).countP isNewVisitorEvent = 1 ∧
     ((onContextChange trivB noneState anonCtx userCtx).2).countP isFetchEvent = 1 ∧
     Event.fetchFlagsCall noneState.nextId ∈ (onContextChange trivB noneState anonCtx userCtx).2 ∧
     ((onContextChange trivB noneState anonCtx userCtx).1).visitor.map Visitor.id = some noneState.nextId ∧
     ((onContextChange trivB noneState anonCtx userCtx).2).countP isUpdateContextEvent = 0 ∧
     ((onContextChange trivB noneState anonCtx userCtx).2).countP isSetConsentEvent = 0) :=
  ⟨by decide, contextChange_identity_change trivB noneState anonCtx userCtx (by decide)⟩

/-- C2: when the new context's `targetingKey` equals the current
handle's identity, no handle is created: the stored handle after the
call is the same object (same creation identity, same identity key) as
before. -/
theorem contextChange_same_identity_stable (B : BackendBehavior) (s : PState)
    (oldC c : FlagshipContext) (v : Visitor)
    (hv : s.visitor = some v)
    (h : c.targetingKey = v.visitorId) :
    ((onContextChange B s oldC c).2).countP isNewVisitorEvent = 0 ∧
    ∃ v2, (onContextChange B s oldC c).1.visitor = some v2
      ∧ v2.id = v.id ∧ v2.visitorId = v.visitorId := by
  have hcond : ¬ c.targetingKey ≠ s.visitor.bind Visitor.visitorId := by
    simp [hv, h]
  unfold onContextChange updateVisitorFlags
  rw [if_neg hcond, hv]
  exact ⟨patchExisting_no_new B v c,
    (patchExisting B v c).1, rfl, patchExisting_id B v c,
    patchExisting_visitorId B v c⟩

/-- Witness for C2 at the state holding the `u` handle. -/
theorem contextChange_same_identity_stable_witness :
    userState.visitor = some wVisitor ∧
    userCtx.targetingKey = wVisitor.visitorId ∧
    (((onContextChange trivB userState anonCtx userCtx).2).countP isNewVisitorEvent = 0 ∧
     ∃ v2, (onContextChange trivB userState anonCtx userCtx).1.visitor = some v2
       ∧ v2.id = wVisitor.id ∧ v2.visitorId = wVisitor.visitorId) :=
  ⟨rfl, rfl,
   contextChange_same_identity_stable trivB userState anonCtx userCtx wVisitor rfl rfl⟩

/-- C7: on an identity-preserving context change, the consent call is
made exactly once with the new value, immediately before the attribute
patch, precisely when the incoming `fsVisitorInfo.hasConsented` is
defined and differs from the handle's current consent; otherwise no
consent call occurs. -/
theorem contextChange_consent_toggle (B : BackendBehavior) (s : PState)
    (oldC c : FlagshipContext) (v : Visitor)
    (hv : s.visitor = some v)
    (h : c.targetingKey = v.visitorId) :
    ((c.fsVisitorInfo.bind VisitorInfo.hasConsented = none
        ∨ c.fsVisitorInfo.bind VisitorInfo.hasConsented = v.hasConsented) →
      ((onContextChange B s oldC c).2).countP isSetConsentEvent = 0) ∧
    (∀ b, c.fsVisitorInfo.bind VisitorInfo.hasConsented = some b →
      v.hasConsented ≠ some b →
      ∃ rest, (onContextChange B s oldC c).2
          = Event.setConsentCall v.id b
            :: Event.updateContextCall v.id (toPrimitiveRecord c.attrs) :: rest
        ∧ rest.countP isSetConsentEvent = 0) := by
  have hcond : ¬ c.targetingKey ≠ s.visitor.bind Visitor.visitorId := by
    simp [hv, h]
  unfold onContextChange updateVisitorFlags
  rw [if_neg hcond, hv]
  exact ⟨fun hcase => patchExisting_consent_skipped B v c hcase,
    fun b hb hne => patchExisting_consent_applied B v c b hb hne⟩

/-- Witness for C7: withdrawing consent for the `u` handle triggers one
consent call right before the patch. -/
theorem contextChange_consent_toggle_witness :
    userState.visitor = some wVisitor ∧
    userCtxNoConsent.targetingKey = wVisitor.visitorId ∧
    userCtxNoConsent.fsVisitorInfo.bind VisitorInfo.hasConsented = some false ∧
    wVisitor.hasConsented ≠ some false ∧
    (∃ rest, (onContextChange trivB userState anonCtx userCtxNoConsent).2
        = Event.setConsentCall wVisitor.id false
          :: Event.updateContextCall wVisitor.id
               (toPrimitiveRecord userCtxNoConsent.attrs) :: rest
      ∧ rest.countP isSetConsentEvent = 0) :=
  ⟨rfl, rfl, rfl, by decide,
   (contextChange_consent_toggle trivB userState anonCtx userCtxNoConsent
      wVisitor rfl rfl).2 false rfl (by decide)⟩

/-- Counterexample to C8 as stated: with no current handle and a context
whose `targetingKey` is absent, the loose comparison
`undefined != undefined` is false, so the identity branch is skipped and
every optional chain no-ops: no handle is created, nothing is stored and
no backend call happens at all. -/
theorem contextChange_no_handle_anonymous_noop :
    (onContextChange trivB noneState anonCtx anonCtx).1.visitor = none ∧
    (onContextChange trivB noneState anonCtx anonCtx).2 = [] :=
  ⟨rfl, rfl⟩

/-- C8 (amended): when no current handle exists and the new context's
`targetingKey` is defined, the identity branch runs the same
create-and-fetch sequence as initialisation: the new handle carries the
new context's identity, consent and filtered attributes and is stored as
current. -/
theorem contextChange_no_handle_creates (B : BackendBehavior) (s : PState)
    (oldC c : FlagshipContext)
    (hv : s.visitor = none)
    (ht : c.targetingKey ≠ none) :
    ∃ v2, (onContextChange B s oldC c).1.visitor = some v2
      ∧ v2.id = s.nextId
      ∧ v2.visitorId = c.targetingKey
      ∧ v2.hasConsented = c.fsVisitorInfo.bind VisitorInfo.hasConsented
      ∧ v2.context = toPrimitiveRecord c.attrs
      ∧ (onContextChange B s oldC c).2
          = [Event.newVisitorCall c.targetingKey
               (c.fsVisitorInfo.bind VisitorInfo.hasConsented)
               (toPrimitiveRecord c.attrs),
             Event.fetchFlagsCall s.nextId] := by
  have hcond : c.targetingKey ≠ s.visitor.bind Visitor.visitorId := by
    simp [hv, ht]
  unfold onContextChange updateVisitorFlags
  rw [if_pos hcond]
  exact ⟨(createVisitor B s (some c)).1, rfl, rfl, rfl, rfl, rfl, rfl⟩

/-- Witness for the amended C8: first context change from the empty
state with the `u` context. -/
theorem contextChange_no_handle_creates_witness :
    noneState.visitor = none ∧
    userCtx.targetingKey ≠ none ∧
    (∃ v2, (onContextChange trivB noneState anonCtx userCtx).1.visitor = some v2
      ∧ v2.id = noneState.nextId
      ∧ v2.visitorId = userCtx.targetingKey
      ∧ v2.hasConsented = userCtx.fsVisitorInfo.bind VisitorInfo.hasConsented
      ∧ v2.context = toPrimitiveRecord userCtx.attrs
      ∧ (onContextChange trivB noneState anonCtx userCtx).2
          = [Event.newVisitorCall userCtx.targetingKey
               (userCtx.fsVisitorInfo.bind VisitorInfo.hasConsented)
               (toPrimitiveRecord userCtx.attrs),
             Event.fetchFlagsCall noneState.nextId]) :=
  ⟨rfl, by decide,
   contextChange_no_handle_creates trivB noneState anonCtx userCtx rfl (by decide)⟩

/-- C3: every initialise call emits exactly one `Ready` signal, as the
last event, strictly after the single fetch on the freshly created
handle; the stored handle is the one created during the call, and no
patch (`updateContext`/`setConsent`) is ever issued by initialise. -/
theorem initialize_ready_once_after_fetch (B : BackendBehavior) (s : PState)
    (c : Option FlagshipContext) :
    ∃ pre v,
      (initializeProvider B s c).2 = pre ++ [Event.emitReady] ∧
      ((initializeProvider B s c).2).countP isReadyEvent = 1 ∧
      (initializeProvider B s c).1.visitor = some v ∧
      v.id = s.nextId ∧
      pre.countP isReadyEvent = 0 ∧
      Event.fetchFlagsCall v.id ∈ pre ∧
      pre.countP isNewVisitorEvent = 1 ∧
      pre.countP isUpdateContextEvent = 0 ∧
      pre.countP isSetConsentEvent = 0 := by
  refine ⟨(initializeSDK s).2 ++ (createVisitor B (initializeSDK s).1 c).2.2,
    (createVisitor B (initializeSDK s).1 c).1, ?_, ?_, rfl, ?_, ?_, ?_, ?_, ?_, ?_⟩ <;>
  rcases initializeSDK_trace s with h0 | h0 <;>
    simp [initializeProvider, h0, createVisitor_trace, isReadyEvent,
      isNewVisitorEvent, isFetchEvent, isUpdateContextEvent, isSetConsentEvent]

end ABTasty
